import Mathlib

/-!
Shallow embedding of the smart-doorbell capstone firmware (Lesson 20):
the event-driven capture controller, its debounced trigger sensor, the
bounded ring history, the SD id-recovery scan, and the read-only web
handlers.  Each definition is translated from the corresponding C++
function of the source file; the mapping is noted in the doc comments.

Modelling conventions:
* `millis()` is a `Nat` supplied once per loop iteration (`Input.now`);
  unsigned-long subtraction `millis() - t0` with monotone time is `Nat`
  truncated subtraction.
* GPIO levels are `Bool` (`HIGH = true`, `LOW = false`).
* SD-card effects are made explicit: each operation reports the base
  names of the files it wrote inside `/doorbell` (directory entries, as
  `entry.name()` yields them), and fallible `SD.open` calls take their
  success as a `Bool` input.
* The asynchronous BLE connect/disconnect callbacks only toggle the
  `bleDeviceConnected` flag; a fixed value per state is carried in the
  controller record.  `server.handleClient()` dispatches to the web
  handlers, which are modelled separately and shown not to touch
  controller state.
-/

namespace Doorbell

/-- `#define COOLDOWN_MS 3000` -/
def COOLDOWN_MS : Nat := 3000

/-- `#define AUDIO_DURATION_MS 2000` -/
def AUDIO_DURATION_MS : Nat := 2000

/-- `#define DEBOUNCE_MS 50` -/
def DEBOUNCE_MS : Nat := 50

/-- `#define MAX_RING_HISTORY 50` -/
def MAX_RING_HISTORY : Nat := 50

/-- GPIO level HIGH (button not pressed: internal pull-up). -/
def HIGH : Bool := true

/-- GPIO level LOW (button pressed: wired active-low). -/
def LOW : Bool := false

/-- `enum State` of the source. -/
inductive CState where
  | idle
  | capturing
  | notifying
  | cooldown
deriving DecidableEq, Repr

/-- `struct RingEvent { int id; unsigned long timestamp; String filename; }` -/
structure RingEvent where
  id : Nat
  timestamp : Nat
  filename : String
deriving DecidableEq, Repr

/-- The two button globals `lastButtonPress` / `lastButtonState`. -/
structure ButtonState where
  lastButtonPress : Nat
  lastButtonState : Bool
deriving DecidableEq, Repr

/-- The controller-owned module-level mutable globals of the source that
the control loop reads or writes (`currentState`, `stateEnteredAt`,
`ringCount`, `lastPhotoFile`, the button pair, `ringHistory` with its
count, the BLE connection flags and `sdAvailable`).  The ring array plus
`ringHistoryCount` is modelled as a list of length at most
`MAX_RING_HISTORY`; `wifiAvailable`/`cameraAvailable` only gate logging
and the web server and are not part of any claim, and `lastRingTime` is
declared but never used by the source. -/
structure Ctrl where
  currentState : CState
  stateEnteredAt : Nat
  ringCount : Nat
  lastPhotoFile : String
  btn : ButtonState
  ringHistory : List RingEvent
  bleDeviceConnected : Bool
  bleOldDeviceConnected : Bool
  sdAvailable : Bool
deriving DecidableEq, Repr

/-- Per-iteration environment: the `millis()` reading, the raw level
`digitalRead(BUTTON_PIN)` returns, whether `esp_camera_fb_get()` yields a
frame, and the success of the three fallible `SD.open` calls
(photo file, audio file, log file). -/
structure Input where
  now : Nat
  buttonLevel : Bool
  frameOk : Bool
  photoOpenOk : Bool
  audioOpenOk : Bool
  logOpenOk : Bool
deriving DecidableEq, Repr

/-- Observable effects of one loop iteration: the `RingEvent` created by
`doCapture` (if any), base names of artifact files written in
`/doorbell`, the CSV row appended by `logRingEvent` (if any) and the BLE
payload passed to `pCharacteristic->notify()` (if any). -/
structure TickOut where
  created : Option RingEvent
  writes : List String
  logRow : Option String
  notified : Option String
deriving DecidableEq, Repr

/-- A tick that produced no observable effect. -/
def emptyOut : TickOut := ⟨none, [], none, none⟩

/-- Zero-padded decimal of width 4, as `snprintf("%04d", n)` produces for
`0 ≤ n < 10000` (wider numbers print in full). -/
def pad4 (n : Nat) : String :=
  let s := toString n
  if s.length < 4 then String.mk (List.replicate (4 - s.length) '0') ++ s else s

/-- Base name `ring_%04d` plus extension, as file names appear as
directory entries of `/doorbell`. -/
def ringBase (ringId : Nat) (ext : String) : String :=
  "ring_" ++ pad4 ringId ++ ext

/-- Base name of the still image of ring `ringId`. -/
def jpgBase (ringId : Nat) : String := ringBase ringId ".jpg"

/-- Base name of the audio clip of ring `ringId`. -/
def rawBase (ringId : Nat) : String := ringBase ringId ".raw"

/-- Full path `/doorbell/ring_%04d.jpg` as built by `snprintf` in
`capturePhoto` and `handlePhoto`. -/
def jpgPath (ringId : Nat) : String := "/doorbell/" ++ jpgBase ringId

/-- `isButtonPressed()`: software-debounced falling-edge detector.  On a
HIGH to LOW transition the press is accepted only when
`millis() - lastButtonPress > DEBOUNCE_MS`; the raw-level memory
`lastButtonState` is assigned the current level on every call. -/
def isButtonPressed (s : ButtonState) (now : Nat) (cur : Bool) :
    ButtonState × Bool :=
  if s.lastButtonState = HIGH ∧ cur = LOW then
    if DEBOUNCE_MS < now - s.lastButtonPress then
      (⟨now, cur⟩, true)
    else
      (⟨s.lastButtonPress, cur⟩, false)
  else
    (⟨s.lastButtonPress, cur⟩, false)

/-- `capturePhoto(ringId)`: grab a frame; on failure return `""`.  On
success build the file name; if the SD card is available and the file
opens, write the JPEG; the file name is returned whether or not the
write happened.  Result: (returned `String`, base names written). -/
def capturePhoto (frameOk sdAvail openOk : Bool) (ringId : Nat) :
    String × List String :=
  if frameOk = false then ("", [])
  else
    (jpgPath ringId,
     if sdAvail = true ∧ openOk = true then [jpgBase ringId] else [])

/-- `recordAudio(ringId)`: returns `false` without writing when the SD
card is unavailable or the file fails to open; otherwise streams the
I2S samples into `ring_%04d.raw` and returns `true`.  Result:
(return value, base names written). -/
def recordAudio (sdAvail openOk : Bool) (ringId : Nat) :
    Bool × List String :=
  if sdAvail = false then (false, [])
  else if openOk = false then (false, [])
  else (true, [rawBase ringId])

/-- `logRingEvent(ringId)`: appended CSV row
(`"%d,%lu,ring_%04d\n"`), or `none` when the SD card is unavailable or
`log.csv` fails to open. -/
def logRingEvent (sdAvail openOk : Bool) (ringId now : Nat) :
    Option String :=
  if sdAvail = false then none
  else if openOk = false then none
  else some (toString ringId ++ "," ++ toString now ++ ",ring_" ++ pad4 ringId)

/-- The payload string `"Ring #" + ringId + " at " + millis()/1000 + "s"`
built by `sendBLENotification`. -/
def bleMessage (ringId now : Nat) : String :=
  "Ring #" ++ toString ringId ++ " at " ++ toString (now / 1000) ++ "s"

/-- `sendBLENotification(ringId)`: calls `notify()` with the message
exactly when `bleDeviceConnected`; otherwise prints and skips. -/
def sendBLENotification (connected : Bool) (ringId now : Nat) :
    Option String :=
  if connected = true then some (bleMessage ringId now) else none

/-- The history append of `doCapture`: while the array is not full the
event is stored at index `ringHistoryCount` which is then incremented;
once full, every entry is shifted down one slot and the event is stored
at index `MAX_RING_HISTORY - 1` (dropping the oldest entry). -/
def appendHistory (h : List RingEvent) (e : RingEvent) : List RingEvent :=
  if h.length < MAX_RING_HISTORY then h ++ [e]
  else h.drop 1 ++ [e]

/-- `doCapture()`: allocate the next ring id (`ringCount++`), capture the
photo, remember `lastPhotoFile` when non-empty, record audio (return
value discarded by the source), and append the event to the ring
history. -/
def doCapture (c : Ctrl) (i : Input) : Ctrl × TickOut :=
  let ringCount2 := c.ringCount + 1
  let currentRingId := ringCount2
  let pr := capturePhoto i.frameOk c.sdAvailable i.photoOpenOk currentRingId
  let photoFile := pr.1
  let lastPhotoFile2 := if photoFile.length > 0 then photoFile else c.lastPhotoFile
  let ar := recordAudio c.sdAvailable i.audioOpenOk currentRingId
  let ev : RingEvent := ⟨currentRingId, i.now, photoFile⟩
  ({ c with ringCount := ringCount2,
            lastPhotoFile := lastPhotoFile2,
            ringHistory := appendHistory c.ringHistory ev },
   ⟨some ev, pr.2 ++ ar.2, none, none⟩)

/-- `doNotify()`: append the CSV log row and send the BLE notification,
both for the current `ringCount`. -/
def doNotify (c : Ctrl) (i : Input) : TickOut :=
  ⟨none, [],
   logRingEvent c.sdAvailable i.logOpenOk c.ringCount i.now,
   sendBLENotification c.bleDeviceConnected c.ringCount i.now⟩

/-- One iteration of `loop()`.  The preamble services the web server
(read-only handlers) and the BLE re-advertising bookkeeping, whose only
controller-visible effect is `bleOldDeviceConnected := bleDeviceConnected`.
Then the state machine runs: IDLE polls the debounced button and moves
to CAPTURING on an accepted press; CAPTURING runs `doCapture` and moves
to NOTIFYING; NOTIFYING runs `doNotify` and moves to COOLDOWN; COOLDOWN
returns to IDLE once `millis() - stateEnteredAt >= COOLDOWN_MS`. -/
def loopTick (c : Ctrl) (i : Input) : Ctrl × TickOut :=
  let c1 := { c with bleOldDeviceConnected := c.bleDeviceConnected }
  match c.currentState with
  | .idle =>
      let r := isButtonPressed c.btn i.now i.buttonLevel
      let c2 := { c1 with btn := r.1 }
      if r.2 = true then
        ({ c2 with currentState := .capturing, stateEnteredAt := i.now },
         emptyOut)
      else
        (c2, emptyOut)
  | .capturing =>
      let r := doCapture c1 i
      ({ r.1 with currentState := .notifying, stateEnteredAt := i.now }, r.2)
  | .notifying =>
      ({ c1 with currentState := .cooldown, stateEnteredAt := i.now },
       doNotify c1 i)
  | .cooldown =>
      if COOLDOWN_MS ≤ i.now - c.stateEnteredAt then
        ({ c1 with currentState := .idle, stateEnteredAt := i.now }, emptyOut)
      else
        (c1, emptyOut)

/-- Iterated control loop over a list of per-tick environments. -/
def runLoop (c : Ctrl) (is : List Input) : Ctrl :=
  is.foldl (fun a i => (loopTick a i).1) c

/-- The events created (by `doCapture`) over a run, in order. -/
def createdEvents (c : Ctrl) : List Input → List RingEvent
  | [] => []
  | i :: rest =>
      ((loopTick c i).2.created).toList ++ createdEvents (loopTick c i).1 rest

/-- The ring ids allocated over a run, in order. -/
def allocatedIds (c : Ctrl) (is : List Input) : List Nat :=
  (createdEvents c is).map (fun e => e.id)

/-- Leading-decimal-digit parse of Arduino `String::toInt` (`atol`):
value of the longest digit prefix, `0` when there is none.  (The ring
file names scanned contain no sign or whitespace.) -/
def atoiNat (s : String) : Nat :=
  ((s.toList.takeWhile (fun ch => ch.isDigit)).foldl
    (fun a ch => a * 10 + (ch.toNat - 48)) 0)

/-- Arduino `String::startsWith`. -/
def strStartsWith (s p : String) : Bool := p.toList.isPrefixOf s.toList

/-- Arduino `String::endsWith`. -/
def strEndsWith (s p : String) : Bool := p.toList.isSuffixOf s.toList

/-- The directory scan of `initSD()`: over the entries of `/doorbell`,
for every name that starts with `"ring_"` and ends with `".jpg"`, parse
`name.substring(5, 9).toInt()` and keep the maximum, starting from the
boot value `ringCount = 0`. -/
def initSD (files : List String) : Nat :=
  files.foldl
    (fun rc name =>
      if (strStartsWith name "ring_" && strEndsWith name ".jpg") = true then
        let num := atoiNat (String.mk ((name.toList.drop 5).take 4))
        if rc < num then num else rc
      else rc)
    0

/-- The controller as `setup()` leaves it: IDLE, empty history, button
memory `(0, HIGH)`, `ringCount` recovered by the `initSD` scan. -/
def bootCtrl (rc : Nat) (sd : Bool) : Ctrl :=
  ⟨.idle, 0, rc, "", ⟨0, HIGH⟩, [], false, false, sd⟩

/-- An HTTP reply: status code and body (for `streamFile` the body is
the path of the streamed file). -/
structure Resp where
  code : Nat
  body : String
deriving DecidableEq, Repr

/-- The dynamic content of the dashboard page built by `handleRoot()`:
total rings, BLE status string, SD status string, the formatted uptime,
and the history rows rendered newest first.  The surrounding constant
HTML/CSS template text carries no controller state and is elided. -/
structure RootView where
  totalRings : Nat
  bleStr : String
  sdStr : String
  uptimeStr : String
  rows : List RingEvent
deriving DecidableEq, Repr

/-- `handleRoot()`: renders the dashboard from the controller state and
`millis()`; assigns no controller-owned global. -/
def handleRoot (c : Ctrl) (now : Nat) : Ctrl × RootView :=
  let upSec := now / 1000
  let uptimeStr :=
    if upSec > 3600 then
      toString (upSec / 3600) ++ "h " ++ toString ((upSec % 3600) / 60) ++ "m"
    else if upSec > 60 then
      toString (upSec / 60) ++ "m " ++ toString (upSec % 60) ++ "s"
    else
      toString upSec ++ "s"
  (c, ⟨c.ringCount,
       if c.bleDeviceConnected then "Connected" else "Waiting",
       if c.sdAvailable then "OK" else "N/A",
       uptimeStr,
       c.ringHistory.reverse⟩)

/-- The display string of `handleStatus` for each state. -/
def stateStr : CState → String
  | .idle => "idle"
  | .capturing => "capturing"
  | .notifying => "notifying"
  | .cooldown => "cooldown"

/-- `handleStatus()`: the JSON snapshot; assigns no controller-owned
global.  `heap` stands for `ESP.getFreeHeap()`. -/
def handleStatus (c : Ctrl) (now heap : Nat) : Ctrl × Resp :=
  (c, ⟨200,
    "\x7b" ++ "\"rings\":" ++ toString c.ringCount ++ ","
    ++ "\"ble\":\"" ++ (if c.bleDeviceConnected then "connected" else "disconnected") ++ "\","
    ++ "\"sd\":" ++ (if c.sdAvailable then "true" else "false") ++ ","
    ++ "\"uptime\":" ++ toString (now / 1000) ++ ","
    ++ "\"freeHeap\":" ++ toString heap ++ ","
    ++ "\"state\":\"" ++ stateStr c.currentState ++ "\""
    ++ "\x7d"⟩)

/-- `handlePhoto()`: 400 without an `id` argument; parse the id; 404
when the SD card is unavailable or the file does not exist (`files` is
the `/doorbell` directory listing); 500 when the file fails to open;
otherwise stream the JPEG.  Assigns no controller-owned global. -/
def handlePhoto (c : Ctrl) (arg : Option String) (files : List String)
    (openOk : Bool) : Ctrl × Resp :=
  match arg with
  | none => (c, ⟨400, "Missing \x27id\x27 parameter"⟩)
  | some a =>
      let ringId := atoiNat a
      if c.sdAvailable = false ∨ ¬ (jpgBase ringId ∈ files) then
        (c, ⟨404, "Photo not found"⟩)
      else if openOk = false then
        (c, ⟨500, "Failed to open photo"⟩)
      else
        (c, ⟨200, jpgPath ringId⟩)

/-- Number of polls of a sequence `(millis, raw level)` that
`isButtonPressed` accepts, threading the button state. -/
def pollCount (s : ButtonState) : List (Nat × Bool) → Nat
  | [] => 0
  | p :: rest =>
      let r := isButtonPressed s p.1 p.2
      (if r.2 = true then 1 else 0) + pollCount r.1 rest

theorem isButtonPressed_lastState (s : ButtonState) (now : Nat) (cur : Bool) :
    ((isButtonPressed s now cur).1).lastButtonState = cur := by
  unfold isButtonPressed
  split
  · split <;> rfl
  · rfl

theorem isButtonPressed_accept (s : ButtonState) (now : Nat) (cur : Bool) :
    (isButtonPressed s now cur).2 = true ↔
      (s.lastButtonState = HIGH ∧ cur = LOW ∧
        DEBOUNCE_MS < now - s.lastButtonPress) := by
  unfold isButtonPressed
  split
  next h =>
    split
    next h2 => simp [h.1, h.2, h2]
    next h2 => simp [h.1, h.2, h2]
  next h =>
    simp only [Bool.false_eq_true, false_iff]
    intro hc
    exact h ⟨hc.1, hc.2.1⟩

/-- A poll whose time is within `DEBOUNCE_MS` of the last accepted press
is rejected and leaves `lastButtonPress` unchanged; hence a whole trace
of such polls accepts nothing. -/
theorem pollCount_eq_zero (tr : List (Nat × Bool)) : ∀ s : ButtonState,
    (∀ p ∈ tr, p.1 ≤ s.lastButtonPress + DEBOUNCE_MS) → pollCount s tr = 0 := by
  induction tr with
  | nil => intro s _; rfl
  | cons p rest ih =>
    intro s h
    have hp : p.1 ≤ s.lastButtonPress + DEBOUNCE_MS := h p (List.mem_cons_self p rest)
    simp only [pollCount]
    unfold isButtonPressed
    split
    next hc =>
      split
      next hlt => omega
      next hlt =>
        simpa using ih ⟨s.lastButtonPress, p.2⟩
          (fun q hq => h q (List.mem_cons_of_mem p hq))
    next hc =>
      simpa using ih ⟨s.lastButtonPress, p.2⟩
        (fun q hq => h q (List.mem_cons_of_mem p hq))

/-- In any poll trace whose times all lie inside one window of length
`DEBOUNCE_MS`, at most one press is accepted. -/
theorem pollCount_le_one (tr : List (Nat × Bool)) : ∀ (s : ButtonState) (t0 : Nat),
    (∀ p ∈ tr, t0 ≤ p.1 ∧ p.1 ≤ t0 + DEBOUNCE_MS) → pollCount s tr ≤ 1 := by
  induction tr with
  | nil => intro s t0 _; exact Nat.zero_le 1
  | cons p rest ih =>
    intro s t0 h
    have hp := h p (List.mem_cons_self p rest)
    simp only [pollCount]
    unfold isButtonPressed
    split
    next hc =>
      split
      next hlt =>
        have hz : pollCount ⟨p.1, p.2⟩ rest = 0 := by
          apply pollCount_eq_zero
          intro q hq
          have := (h q (List.mem_cons_of_mem p hq)).2
          simp only [ButtonState.mk.injEq]
          omega
        simp [hz]
      next hlt =>
        simpa using ih ⟨s.lastButtonPress, p.2⟩ t0
          (fun q hq => h q (List.mem_cons_of_mem p hq))
    next hc =>
      simpa using ih ⟨s.lastButtonPress, p.2⟩ t0
        (fun q hq => h q (List.mem_cons_of_mem p hq))

/-- The button state as `setup()` leaves it: `lastButtonPress = 0`,
`lastButtonState = HIGH`. -/
def bootButton : ButtonState := ⟨0, HIGH⟩

/-- Claim C3, counterexample: from the boot button state, the poll
trace with raw levels LOW at 30 ms, HIGH at 40 ms, LOW at 45 ms has two
successive HIGH-to-LOW transitions 15 ms apart (less than
`DEBOUNCE_MS`), yet the debounced poll accepts zero edges, not exactly
one: both transitions fall within `DEBOUNCE_MS` of the initial
`lastButtonPress = 0`, so the guard
`millis() - lastButtonPress > DEBOUNCE_MS` rejects each of them. -/
theorem debounce_burst_counterexample :
    pollCount bootButton [(30, LOW), (40, HIGH), (45, LOW)] = 0 ∧ (0 : Nat) ≠ 1 := by
  constructor
  · decide
  · decide

/-- Claim C3, amended: (1) a HIGH-to-LOW raw transition is accepted
exactly when more than `DEBOUNCE_MS` (hence at least `DEBOUNCE_MS`) has
elapsed since the previously accepted press; (2) the stored raw-level
memory is updated on every poll regardless of the debounce outcome;
(3) in any poll trace confined to one window of length `DEBOUNCE_MS`,
at most one edge is accepted; and (4) a burst whose HIGH-to-LOW
transitions all fall within `DEBOUNCE_MS` of its first transition is
accepted exactly once provided that first transition itself arrives
more than `DEBOUNCE_MS` after the previously accepted press. -/
theorem debounce_amended :
    (∀ (s : ButtonState) (now : Nat) (cur : Bool),
       ((isButtonPressed s now cur).2 = true ↔
         (s.lastButtonState = HIGH ∧ cur = LOW ∧
           DEBOUNCE_MS < now - s.lastButtonPress)) ∧
       ((isButtonPressed s now cur).2 = true →
         DEBOUNCE_MS ≤ now - s.lastButtonPress)) ∧
    (∀ (s : ButtonState) (now : Nat) (cur : Bool),
       ((isButtonPressed s now cur).1).lastButtonState = cur) ∧
    (∀ (s : ButtonState) (t0 : Nat) (tr : List (Nat × Bool)),
       (∀ p ∈ tr, t0 ≤ p.1 ∧ p.1 ≤ t0 + DEBOUNCE_MS) →
       pollCount s tr ≤ 1) ∧
    (∀ (s : ButtonState) (t1 : Nat) (rest : List (Nat × Bool)),
       s.lastButtonState = HIGH →
       DEBOUNCE_MS < t1 - s.lastButtonPress →
       (∀ p ∈ rest, p.1 ≤ t1 + DEBOUNCE_MS) →
       pollCount s ((t1, LOW) :: rest) = 1) := by
  refine ⟨?_, ?_, ?_, ?_⟩
  · intro s now cur
    refine ⟨isButtonPressed_accept s now cur, fun h => ?_⟩
    have := (isButtonPressed_accept s now cur).mp h
    omega
  · exact isButtonPressed_lastState
  · intro s t0 tr h
    exact pollCount_le_one tr s t0 h
  · intro s t1 rest hstate hgap hrest
    simp only [pollCount]
    have haccept : (isButtonPressed s t1 LOW).2 = true := by
      rw [isButtonPressed_accept]
      exact ⟨hstate, rfl, hgap⟩
    have hstate1 : (isButtonPressed s t1 LOW).1 = ⟨t1, LOW⟩ := by
      unfold isButtonPressed
      rw [if_pos ⟨hstate, rfl⟩, if_pos hgap]
    rw [haccept, hstate1]
    have hz : pollCount ⟨t1, LOW⟩ rest = 0 := by
      apply pollCount_eq_zero
      intro q hq
      simpa using hrest q hq
    simp [hz]

/-- Claim C3 witness: a press at 100 ms from boot (accepted: more than
`DEBOUNCE_MS` after the initial press time 0) followed by bounces
within 50 ms is accepted exactly once. -/
theorem debounce_amended_witness :
    (bootButton.lastButtonState = HIGH ∧
      DEBOUNCE_MS < 100 - bootButton.lastButtonPress ∧
      (∀ p ∈ [((110 : Nat), HIGH), ((120 : Nat), LOW)], p.1 ≤ 100 + DEBOUNCE_MS)) ∧
    pollCount bootButton [(100, LOW), (110, HIGH), (120, LOW)] = 1 := by
  refine ⟨⟨by decide, by decide, by decide⟩, ?_⟩
  exact debounce_amended.2.2.2 bootButton 100 [(110, HIGH), (120, LOW)]
    (by decide) (by decide) (by decide)

theorem loopTick_cooldown_lt (c : Ctrl) (i : Input)
    (hc : c.currentState = .cooldown)
    (h : i.now - c.stateEnteredAt < COOLDOWN_MS) :
    (loopTick c i).1 = { c with bleOldDeviceConnected := c.bleDeviceConnected } := by
  simp [loopTick, hc, Nat.not_le.mpr h]

theorem loopTick_cooldown_ge (c : Ctrl) (i : Input)
    (hc : c.currentState = .cooldown)
    (h : COOLDOWN_MS ≤ i.now - c.stateEnteredAt) :
    (loopTick c i).1 = { c with bleOldDeviceConnected := c.bleDeviceConnected,
                                currentState := .idle,
                                stateEnteredAt := i.now } := by
  simp [loopTick, hc, h]

/-- A controller sitting in COOLDOWN is unchanged (but for the BLE
re-advertising flag) by every tick whose `millis()` reading is below
`COOLDOWN_MS`. -/
theorem runLoop_cooldown_stay (is : List Input) : ∀ c : Ctrl,
    c.currentState = .cooldown →
    (∀ j ∈ is, j.now < COOLDOWN_MS) →
    (runLoop c is).currentState = .cooldown ∧
      (runLoop c is).stateEnteredAt = c.stateEnteredAt := by
  induction is with
  | nil => intro c hc _; exact ⟨hc, rfl⟩
  | cons j js ih =>
    intro c hc h
    have hj : j.now < COOLDOWN_MS := h j (List.mem_cons_self j js)
    have hlt : j.now - c.stateEnteredAt < COOLDOWN_MS := by omega
    have hstep := loopTick_cooldown_lt c j hc hlt
    simp only [runLoop, List.foldl_cons] at *
    rw [hstep]
    exact ih { c with bleOldDeviceConnected := c.bleDeviceConnected }
      (by simpa using hc) (fun q hq => h q (List.mem_cons_of_mem j hq))

/-- Claim C2, counterexample: a press accepted at `t = 0` (tick time
100 ms, the claim's clock starting at acceptance) is followed by the
capture tick at 600 ms and the notify tick at 700 ms, so COOLDOWN is
entered at `stateEnteredAt = 700`.  The first loop tick at or after
`t = 3000` (absolute 3100 ms) finds `3100 - 700 = 2400 < COOLDOWN_MS`
and leaves the controller in COOLDOWN — it does not transition to IDLE
at that tick, because the cooldown clock starts when NOTIFYING
completes, not at trigger acceptance. -/
theorem cooldown_first_tick_counterexample :
    (loopTick (bootCtrl 0 true)
        ⟨100, LOW, true, true, true, true⟩).1.currentState = .capturing ∧
    100 + COOLDOWN_MS ≤ 3100 ∧
    (runLoop (bootCtrl 0 true)
        [⟨100, LOW, true, true, true, true⟩,
         ⟨600, HIGH, true, true, true, true⟩,
         ⟨700, HIGH, true, true, true, true⟩,
         ⟨3100, HIGH, true, true, true, true⟩]).currentState = .cooldown := by
  refine ⟨by decide, by decide, by decide⟩

/-- Claim C2, amended: in COOLDOWN the controller returns to IDLE
exactly when `millis() - stateEnteredAt >= COOLDOWN_MS` (with
`COOLDOWN_MS = 3000`), where `stateEnteredAt` is the cooldown start —
recorded when NOTIFYING completes, at or after the trigger; it stays in
COOLDOWN at every tick whose elapsed time is smaller, in particular at
every tick before `t = 3000`.  For a cooldown starting at
`stateEnteredAt = 0` (the claim's idealization of an instantaneous
capture for a trigger accepted at `t = 0`) the controller is still in
COOLDOWN at every loop tick before `t = 3000` and is in IDLE right
after the first loop tick at or after `t = 3000`. -/
theorem cooldown_timing :
    (∀ (c : Ctrl) (i : Input), c.currentState = .cooldown →
       (((loopTick c i).1.currentState = .idle ↔
          COOLDOWN_MS ≤ i.now - c.stateEnteredAt) ∧
        ((loopTick c i).1.currentState = .cooldown ↔
          i.now - c.stateEnteredAt < COOLDOWN_MS))) ∧
    (∀ (c : Ctrl) (is : List Input), c.currentState = .cooldown →
       (∀ j ∈ is, j.now < COOLDOWN_MS) →
       (runLoop c is).currentState = .cooldown) ∧
    (∀ (c : Ctrl) (is : List Input) (i : Input), c.currentState = .cooldown →
       c.stateEnteredAt = 0 →
       (∀ j ∈ is, j.now < COOLDOWN_MS) →
       COOLDOWN_MS ≤ i.now →
       (runLoop c (is ++ [i])).currentState = .idle) := by
  refine ⟨?_, ?_, ?_⟩
  · intro c i hc
    by_cases h : COOLDOWN_MS ≤ i.now - c.stateEnteredAt
    · rw [loopTick_cooldown_ge c i hc h]
      simp [h, Nat.not_lt.mpr h]
    · rw [loopTick_cooldown_lt c i hc (Nat.not_le.mp h)]
      simp [hc, h, Nat.not_le.mp h]
  · intro c is hc h
    exact (runLoop_cooldown_stay is c hc h).1
  · intro c is i hc h0 h hi
    have hrun := runLoop_cooldown_stay is c hc h
    have hfin : runLoop c (is ++ [i]) = (loopTick (runLoop c is) i).1 := by
      simp [runLoop, List.foldl_append]
    rw [hfin, loopTick_cooldown_ge (runLoop c is) i hrun.1 (by omega)]

/-- Claim C2 witness: cooldown entered at `t = 0`; ticks at 0 ms,
1500 ms and 2999 ms leave the controller in COOLDOWN, and the tick at
3000 ms moves it to IDLE. -/
theorem cooldown_timing_witness :
    ((⟨.cooldown, 0, 1, "", ⟨0, HIGH⟩, [], false, false, true⟩ : Ctrl).currentState
        = .cooldown ∧
      (∀ j ∈ [(⟨0, HIGH, true, true, true, true⟩ : Input),
              ⟨1500, HIGH, true, true, true, true⟩,
              ⟨2999, HIGH, true, true, true, true⟩], j.now < COOLDOWN_MS) ∧
      COOLDOWN_MS ≤ (3000 : Nat)) ∧
    (runLoop ⟨.cooldown, 0, 1, "", ⟨0, HIGH⟩, [], false, false, true⟩
        [⟨0, HIGH, true, true, true, true⟩,
         ⟨1500, HIGH, true, true, true, true⟩,
         ⟨2999, HIGH, true, true, true, true⟩]).currentState = .cooldown ∧
    (runLoop ⟨.cooldown, 0, 1, "", ⟨0, HIGH⟩, [], false, false, true⟩
        ([⟨0, HIGH, true, true, true, true⟩,
          ⟨1500, HIGH, true, true, true, true⟩,
          ⟨2999, HIGH, true, true, true, true⟩]
         ++ [⟨3000, HIGH, true, true, true, true⟩])).currentState = .idle := by
  refine ⟨⟨by decide, by decide, by decide⟩, ?_, ?_⟩
  · exact cooldown_timing.2.1 _ _ (by decide) (by decide)
  · exact cooldown_timing.2.2 _ _ _ (by decide) (by decide) (by decide) (by decide)

/-- Claim C1: the trigger sensor is polled only in the IDLE state, so a
button press arriving while the controller is not IDLE is dropped, not
queued: the tick's outcome (successor state, ring counter, history,
outputs — and even the debounce memory) is identical whatever the raw
button level reads, and the button memory is left untouched.  Moreover
events are created exactly by CAPTURING ticks, and CAPTURING is entered
only from IDLE — the state machine serializes events, so at most one
Event is in flight at any time. -/
theorem nonidle_press_dropped :
    (∀ (c : Ctrl) (i : Input) (b : Bool), c.currentState ≠ .idle →
       loopTick c { i with buttonLevel := b } = loopTick c i ∧
       (loopTick c i).1.btn = c.btn) ∧
    (∀ (c : Ctrl) (i : Input),
       ((loopTick c i).2.created).isSome = true ↔ c.currentState = .capturing) ∧
    (∀ (c : Ctrl) (i : Input), (loopTick c i).1.currentState = .capturing →
       c.currentState = .idle) := by
  refine ⟨?_, ?_, ?_⟩
  · intro c i b h
    cases hc : c.currentState with
    | idle => exact absurd hc h
    | capturing => simp [loopTick, hc, doCapture]
    | notifying => simp [loopTick, hc, doNotify]
    | cooldown =>
        constructor
        · simp only [loopTick, hc]
        · simp only [loopTick, hc]
          split <;> rfl
  · intro c i
    cases hc : c.currentState with
    | idle =>
        simp only [loopTick, hc]
        split <;> simp [emptyOut]
    | capturing => simp [loopTick, hc, doCapture]
    | notifying => simp [loopTick, hc, doNotify, emptyOut]
    | cooldown =>
        simp only [loopTick, hc]
        split <;> simp [emptyOut]
  · intro c i
    cases hc : c.currentState with
    | idle => intro _; rfl
    | capturing => simp [loopTick, hc, doCapture]
    | notifying => simp [loopTick, hc]
    | cooldown =>
        simp only [loopTick, hc]
        split <;> simp

/-- Claim C1 witness: with the controller in COOLDOWN, the tick result
is the same whether the button reads LOW (pressed) or HIGH. -/
theorem nonidle_press_dropped_witness :
    ((⟨.cooldown, 0, 3, "", ⟨0, HIGH⟩, [], false, false, true⟩ : Ctrl).currentState
      ≠ .idle) ∧
    loopTick (⟨.cooldown, 0, 3, "", ⟨0, HIGH⟩, [], false, false, true⟩ : Ctrl)
      { (⟨100, HIGH, true, true, true, true⟩ : Input) with buttonLevel := LOW } =
    loopTick (⟨.cooldown, 0, 3, "", ⟨0, HIGH⟩, [], false, false, true⟩ : Ctrl)
      ⟨100, HIGH, true, true, true, true⟩ := by
  refine ⟨by decide, ?_⟩
  exact (nonidle_press_dropped.1 _ ⟨100, HIGH, true, true, true, true⟩ LOW
    (by decide)).1

/-- The `n` most recent elements of `xs`, in insertion order. -/
def lastN (n : Nat) (xs : List α) : List α := xs.drop (xs.length - n)

theorem lastN_of_le {n : Nat} {xs : List α} (h : xs.length ≤ n) :
    lastN n xs = xs := by
  simp [lastN, Nat.sub_eq_zero_of_le h]

theorem drop_length_add (as : List α) (bs : List α) (k : Nat) :
    (as ++ bs).drop (as.length + k) = bs.drop k := by
  induction as with
  | nil => simp
  | cons a as ih => simp [Nat.succ_add, ih]

theorem lastN_append_right {n : Nat} (as bs : List α) (h : n ≤ bs.length) :
    lastN n (as ++ bs) = lastN n bs := by
  unfold lastN
  rw [List.length_append,
      show as.length + bs.length - n = as.length + (bs.length - n) by omega,
      drop_length_add]

theorem lastN_length {n : Nat} (xs : List α) :
    (lastN n xs).length = xs.length - (xs.length - n) := by
  simp [lastN]

theorem lastN_absorb {n : Nat} (xs ys : List α) :
    lastN n (lastN n xs ++ ys) = lastN n (xs ++ ys) := by
  by_cases h : xs.length ≤ n
  · rw [lastN_of_le h]
  · have hlen : (lastN n xs).length = n := by
      rw [lastN_length]; omega
    conv_rhs =>
      rw [show xs = xs.take (xs.length - n) ++ xs.drop (xs.length - n) from
            (List.take_append_drop _ xs).symm]
    rw [show xs.drop (xs.length - n) = lastN n xs from rfl, List.append_assoc,
        lastN_append_right (xs.take (xs.length - n)) (lastN n xs ++ ys)
          (by rw [List.length_append, hlen]; omega)]

theorem appendHistory_length_le {h : List RingEvent} (e : RingEvent)
    (hl : h.length ≤ MAX_RING_HISTORY) :
    (appendHistory h e).length ≤ MAX_RING_HISTORY := by
  unfold appendHistory
  simp only [MAX_RING_HISTORY] at *
  split
  next hc => simp only [List.length_append, List.length_singleton]; omega
  next hc =>
    simp only [List.length_append, List.length_singleton, List.length_drop]
    omega

theorem appendHistory_eq_lastN {h : List RingEvent} (e : RingEvent)
    (hl : h.length ≤ MAX_RING_HISTORY) :
    appendHistory h e = lastN MAX_RING_HISTORY (h ++ [e]) := by
  unfold appendHistory
  simp only [MAX_RING_HISTORY] at *
  split
  next hc =>
    rw [lastN_of_le
      (by simp only [List.length_append, List.length_singleton]; omega)]
  next hc =>
    have hfull : h.length = 50 := by omega
    unfold lastN
    rw [List.length_append, List.length_singleton, hfull,
        show (50 + 1 - 50 : Nat) = 1 from rfl]
    cases h with
    | nil => simp at hfull
    | cons a t => simp

/-- Folding the history append over a batch of events keeps exactly the
`MAX_RING_HISTORY` most recent entries. -/
theorem foldl_appendHistory (es : List RingEvent) : ∀ h : List RingEvent,
    h.length ≤ MAX_RING_HISTORY →
    es.foldl appendHistory h = lastN MAX_RING_HISTORY (h ++ es) := by
  induction es with
  | nil =>
      intro h hl
      rw [List.foldl_nil, List.append_nil, lastN_of_le hl]
  | cons e es ih =>
      intro h hl
      rw [List.foldl_cons, ih _ (appendHistory_length_le e hl),
          appendHistory_eq_lastN e hl, lastN_absorb, List.append_assoc,
          List.singleton_append]

/-- Each tick folds the events it created (none, or the one `doCapture`
built) onto the ring history. -/
theorem loopTick_history (c : Ctrl) (i : Input) :
    (loopTick c i).1.ringHistory =
      (((loopTick c i).2.created).toList).foldl appendHistory c.ringHistory := by
  cases hc : c.currentState with
  | idle =>
      simp only [loopTick, hc]
      split <;> simp [emptyOut]
  | capturing => simp [loopTick, hc, doCapture]
  | notifying => simp [loopTick, hc, doNotify]
  | cooldown =>
      simp only [loopTick, hc]
      split <;> simp [emptyOut]

/-- Over a run, the history is the fold of the created events. -/
theorem runLoop_history (is : List Input) : ∀ c : Ctrl,
    (runLoop c is).ringHistory =
      (createdEvents c is).foldl appendHistory c.ringHistory := by
  induction is with
  | nil => intro c; rfl
  | cons i is ih =>
      intro c
      rw [show runLoop c (i :: is) = runLoop (loopTick c i).1 is from rfl,
          show createdEvents c (i :: is)
              = ((loopTick c i).2.created).toList
                 ++ createdEvents (loopTick c i).1 is from rfl,
          List.foldl_append, ih, loopTick_history]

/-- Claim C4: starting from any history of length at most
`MAX_RING_HISTORY = 50` (in particular the empty boot history), after a
run the in-memory history is exactly the 50 most recent created Events
in insertion order (the oldest entry of a full history being evicted at
each append); its length never exceeds 50, and it is exactly 50 as soon
as more than 50 Events were created. -/
theorem history_ring_recent (c : Ctrl) (is : List Input)
    (h : c.ringHistory.length ≤ MAX_RING_HISTORY) :
    (runLoop c is).ringHistory =
      lastN MAX_RING_HISTORY (c.ringHistory ++ createdEvents c is) ∧
    (runLoop c is).ringHistory.length ≤ MAX_RING_HISTORY ∧
    (c.ringHistory = [] → MAX_RING_HISTORY < (createdEvents c is).length →
      (runLoop c is).ringHistory.length = MAX_RING_HISTORY) := by
  have h1 : (runLoop c is).ringHistory =
      lastN MAX_RING_HISTORY (c.ringHistory ++ createdEvents c is) := by
    rw [runLoop_history, foldl_appendHistory _ _ h]
  refine ⟨h1, ?_, ?_⟩
  · rw [h1, lastN_length]
    simp only [MAX_RING_HISTORY]
    omega
  · intro hnil hlong
    rw [h1, hnil, List.nil_append, lastN_length]
    simp only [MAX_RING_HISTORY] at hlong ⊢
    omega

/-- Claim C4 witness: a fresh boot, one accepted press and one full
cycle leave the history equal to the single created event. -/
theorem history_ring_recent_witness :
    ((bootCtrl 0 true).ringHistory.length ≤ MAX_RING_HISTORY) ∧
    (runLoop (bootCtrl 0 true)
        [⟨100, LOW, true, true, true, true⟩,
         ⟨110, LOW, true, true, true, true⟩,
         ⟨120, LOW, true, true, true, true⟩,
         ⟨3200, HIGH, true, true, true, true⟩]).ringHistory =
      lastN MAX_RING_HISTORY
        ((bootCtrl 0 true).ringHistory ++
          createdEvents (bootCtrl 0 true)
            [⟨100, LOW, true, true, true, true⟩,
             ⟨110, LOW, true, true, true, true⟩,
             ⟨120, LOW, true, true, true, true⟩,
             ⟨3200, HIGH, true, true, true, true⟩]) :=
  ⟨by decide, (history_ring_recent _ _ (by decide)).1⟩

theorem loopTick_ringCount (c : Ctrl) (i : Input) :
    (loopTick c i).1.ringCount =
      if c.currentState = .capturing then c.ringCount + 1 else c.ringCount := by
  cases hc : c.currentState with
  | idle =>
      simp only [loopTick, hc]
      split <;> simp [hc]
  | capturing => simp [loopTick, hc, doCapture]
  | notifying => simp [loopTick, hc]
  | cooldown =>
      simp only [loopTick, hc]
      split <;> simp [hc]

theorem loopTick_created (c : Ctrl) (i : Input) :
    (loopTick c i).2.created =
      if c.currentState = .capturing
      then some ⟨c.ringCount + 1, i.now,
        (capturePhoto i.frameOk c.sdAvailable i.photoOpenOk (c.ringCount + 1)).1⟩
      else none := by
  cases hc : c.currentState with
  | idle =>
      simp only [loopTick, hc]
      split <;> simp [hc, emptyOut]
  | capturing => simp [loopTick, hc, doCapture]
  | notifying => simp [loopTick, hc, doNotify]
  | cooldown =>
      simp only [loopTick, hc]
      split <;> simp [hc, emptyOut]

/-- Every ring id allocated during a run exceeds the starting counter,
and the allocated ids are pairwise strictly increasing. -/
theorem allocatedIds_increasing (is : List Input) : ∀ c : Ctrl,
    (∀ x ∈ allocatedIds c is, c.ringCount < x) ∧
      List.Pairwise (· < ·) (allocatedIds c is) := by
  induction is with
  | nil =>
      intro c
      exact ⟨by simp [allocatedIds, createdEvents], List.Pairwise.nil⟩
  | cons i is ih =>
    intro c
    have hstep : allocatedIds c (i :: is)
        = (((loopTick c i).2.created).toList).map (fun e => e.id)
           ++ allocatedIds (loopTick c i).1 is := by
      simp [allocatedIds, createdEvents]
    obtain ⟨hbound, hpair⟩ := ih (loopTick c i).1
    by_cases hc : c.currentState = .capturing
    · have hrc : (loopTick c i).1.ringCount = c.ringCount + 1 := by
        rw [loopTick_ringCount, if_pos hc]
      rw [hrc] at hbound
      rw [hstep, loopTick_created, if_pos hc]
      simp only [Option.toList_some, List.map_cons, List.map_nil,
        List.singleton_append]
      constructor
      · intro x hx
        rcases List.mem_cons.mp hx with h | h
        · omega
        · have := hbound x h; omega
      · exact List.Pairwise.cons (fun x hx => by have := hbound x hx; omega) hpair
    · have hrc : (loopTick c i).1.ringCount = c.ringCount := by
        rw [loopTick_ringCount, if_neg hc]
      rw [hrc] at hbound
      rw [hstep, loopTick_created, if_neg hc]
      simpa using ⟨hbound, hpair⟩

/-- Claim C5: ring ids are strictly increasing within a run — a
CAPTURING tick allocates exactly the successor of the current counter
and no other tick touches it — and the `initSD` scan of pre-existing
artifact names (here with `ring_0005.jpg` the highest image on the
card) recovers the counter so that the very next accepted press
allocates id 6. -/
theorem ids_increasing_and_recovery :
    (∀ (c : Ctrl) (is : List Input),
       List.Pairwise (· < ·) (allocatedIds c is)) ∧
    (∀ (c : Ctrl) (i : Input),
       (loopTick c i).1.ringCount =
         if c.currentState = .capturing then c.ringCount + 1 else c.ringCount) ∧
    initSD ["ring_0002.jpg", "ring_0005.jpg", "notes.txt"] = 5 ∧
    (doCapture
        (bootCtrl (initSD ["ring_0002.jpg", "ring_0005.jpg", "notes.txt"]) true)
        ⟨100, LOW, true, true, true, true⟩).2.created =
      some ⟨6, 100, jpgPath 6⟩ ∧
    (doCapture
        (bootCtrl (initSD ["ring_0002.jpg", "ring_0005.jpg", "notes.txt"]) true)
        ⟨100, LOW, true, true, true, true⟩).1.ringCount = 6 := by
  refine ⟨?_, loopTick_ringCount, by decide, by decide, by decide⟩
  intro c is
  exact (allocatedIds_increasing is c).2

theorem loopTick_notifying_state (c : Ctrl) (i : Input)
    (h : c.currentState = .notifying) :
    (loopTick c i).1.currentState = .cooldown := by
  simp [loopTick, h]

/-- Claim C6: when the still acquisition fails (`esp_camera_fb_get`
returns null) but the audio recording succeeds, the created Event has
an empty image reference, the audio clip is the one artifact written,
the Event is still appended to the ring history, and the controller
moves on to NOTIFYING and then COOLDOWN without stalling. -/
theorem photo_fail_audio_ok (c : Ctrl) (i i2 : Input)
    (h1 : c.currentState = .capturing) (h2 : i.frameOk = false)
    (h3 : c.sdAvailable = true) (h4 : i.audioOpenOk = true) :
    (loopTick c i).2.created = some ⟨c.ringCount + 1, i.now, ""⟩ ∧
    (loopTick c i).2.writes = [rawBase (c.ringCount + 1)] ∧
    (recordAudio c.sdAvailable i.audioOpenOk (c.ringCount + 1)).1 = true ∧
    (loopTick c i).1.ringHistory =
      appendHistory c.ringHistory ⟨c.ringCount + 1, i.now, ""⟩ ∧
    (loopTick c i).1.currentState = .notifying ∧
    (loopTick (loopTick c i).1 i2).1.currentState = .cooldown := by
  have hnot : (loopTick c i).1.currentState = .notifying := by
    simp [loopTick, h1, doCapture]
  refine ⟨?_, ?_, ?_, ?_, hnot, ?_⟩
  · simp [loopTick, h1, doCapture, capturePhoto, h2]
  · simp [loopTick, h1, doCapture, capturePhoto, recordAudio, h2, h3, h4]
  · simp [recordAudio, h3, h4]
  · simp [loopTick, h1, doCapture, capturePhoto, h2]
  · exact loopTick_notifying_state _ i2 hnot

/-- Claim C6 witness: concrete capture tick with a failed frame grab
and a successful audio recording. -/
theorem photo_fail_audio_ok_witness :
    ((⟨.capturing, 50, 0, "", ⟨0, HIGH⟩, [], false, false, true⟩ : Ctrl).currentState
        = .capturing ∧
      (⟨60, HIGH, false, true, true, true⟩ : Input).frameOk = false ∧
      (⟨.capturing, 50, 0, "", ⟨0, HIGH⟩, [], false, false, true⟩ : Ctrl).sdAvailable
        = true ∧
      (⟨60, HIGH, false, true, true, true⟩ : Input).audioOpenOk = true) ∧
    (loopTick (⟨.capturing, 50, 0, "", ⟨0, HIGH⟩, [], false, false, true⟩ : Ctrl)
        ⟨60, HIGH, false, true, true, true⟩).2.created = some ⟨1, 60, ""⟩ ∧
    (loopTick
        (loopTick (⟨.capturing, 50, 0, "", ⟨0, HIGH⟩, [], false, false, true⟩ : Ctrl)
          ⟨60, HIGH, false, true, true, true⟩).1
        ⟨70, HIGH, true, true, true, true⟩).1.currentState = .cooldown := by
  have h := photo_fail_audio_ok
    (⟨.capturing, 50, 0, "", ⟨0, HIGH⟩, [], false, false, true⟩ : Ctrl)
    ⟨60, HIGH, false, true, true, true⟩ ⟨70, HIGH, true, true, true, true⟩
    (by decide) (by decide) (by decide) (by decide)
  exact ⟨⟨by decide, by decide, by decide, by decide⟩, h.1, h.2.2.2.2.2⟩

theorem jpgPath_ne_empty (ringId : Nat) : jpgPath ringId ≠ "" := by
  intro h
  have hlen : (jpgPath ringId).length = 0 := by rw [h]; rfl
  unfold jpgPath jpgBase ringBase at hlen
  rw [String.length_append, String.length_append, String.length_append,
      show ("/doorbell/" : String).length = 10 from rfl,
      show ("ring_" : String).length = 5 from rfl,
      show (".jpg" : String).length = 4 from rfl] at hlen
  omega

/-- Claim C7, counterexample: with a working camera but no SD card
(`sdAvailable = false`), `capturePhoto` writes nothing to storage yet
still returns the non-empty file name, so the Event's image reference
is non-empty without the image having been written. -/
theorem photo_ref_without_write :
    (capturePhoto true false false 1).1 = "/doorbell/ring_0001.jpg" ∧
    (capturePhoto true false false 1).1 ≠ "" ∧
    (capturePhoto true false false 1).2 = [] := by
  refine ⟨by decide, by decide, by decide⟩

/-- Claim C7, amended: the image reference is non-empty exactly when
the still acquisition (frame grab) succeeded; the image artifact is
written to storage exactly when the frame grab, the SD card and the
file open all succeeded — on a failed or impossible store write the
reference still names the (unwritten) artifact — and in every case the
capture sequence continues to NOTIFYING. -/
theorem photo_ref_amended :
    (∀ (frameOk sdAvail openOk : Bool) (ringId : Nat),
       ((capturePhoto frameOk sdAvail openOk ringId).1 ≠ "" ↔ frameOk = true) ∧
       ((capturePhoto frameOk sdAvail openOk ringId).1 = "" ↔ frameOk = false) ∧
       (jpgBase ringId ∈ (capturePhoto frameOk sdAvail openOk ringId).2 ↔
         (frameOk = true ∧ sdAvail = true ∧ openOk = true))) ∧
    (∀ (c : Ctrl) (i : Input), c.currentState = .capturing →
       (loopTick c i).1.currentState = .notifying) := by
  constructor
  · intro frameOk sdAvail openOk ringId
    cases frameOk <;> cases sdAvail <;> cases openOk <;>
      simp [capturePhoto, jpgPath_ne_empty]
  · intro c i hc
    simp [loopTick, hc, doCapture]

/-- Claim C7 witness: a concrete CAPTURING tick proceeds to NOTIFYING. -/
theorem photo_ref_amended_witness :
    ((⟨.capturing, 50, 2, "", ⟨0, HIGH⟩, [], false, false, false⟩ : Ctrl).currentState
        = .capturing) ∧
    (loopTick (⟨.capturing, 50, 2, "", ⟨0, HIGH⟩, [], false, false, false⟩ : Ctrl)
        ⟨60, HIGH, true, true, true, true⟩).1.currentState = .notifying :=
  ⟨by decide,
   photo_ref_amended.2
     (⟨.capturing, 50, 2, "", ⟨0, HIGH⟩, [], false, false, false⟩ : Ctrl)
     ⟨60, HIGH, true, true, true, true⟩ (by decide)⟩

/-- Claim C8: on a NOTIFYING tick the controller performs exactly the
transition to COOLDOWN (no notification is queued in any state field);
`notify()` fires with the id-and-timestamp payload exactly when a BLE
subscriber is connected and is silently skipped otherwise (no error
value exists to raise), while the CSV log row is written — or not —
based only on SD availability, independent of the subscriber. -/
theorem notify_skip_silently (c : Ctrl) (i : Input)
    (h : c.currentState = .notifying) :
    (loopTick c i).1 = { c with bleOldDeviceConnected := c.bleDeviceConnected,
                                currentState := .cooldown,
                                stateEnteredAt := i.now } ∧
    (loopTick c i).2.notified =
      sendBLENotification c.bleDeviceConnected c.ringCount i.now ∧
    (c.bleDeviceConnected = false → (loopTick c i).2.notified = none) ∧
    (c.bleDeviceConnected = true →
      (loopTick c i).2.notified = some (bleMessage c.ringCount i.now)) ∧
    (loopTick c i).2.logRow =
      logRingEvent c.sdAvailable i.logOpenOk c.ringCount i.now ∧
    (loopTick c i).2.writes = [] ∧
    (loopTick c i).2.created = none := by
  refine ⟨?_, ?_, ?_, ?_, ?_, ?_, ?_⟩
  · simp [loopTick, h]
  · simp [loopTick, h, doNotify]
  · intro hb; simp [loopTick, h, doNotify, sendBLENotification, hb]
  · intro hb; simp [loopTick, h, doNotify, sendBLENotification, hb]
  · simp [loopTick, h, doNotify]
  · simp [loopTick, h, doNotify]
  · simp [loopTick, h, doNotify]

/-- Claim C8 witness: a NOTIFYING tick with no subscriber connected
sends nothing and lands in COOLDOWN. -/
theorem notify_skip_silently_witness :
    ((⟨.notifying, 80, 3, "", ⟨0, HIGH⟩, [], false, false, true⟩ : Ctrl).currentState
        = .notifying ∧
      (⟨.notifying, 80, 3, "", ⟨0, HIGH⟩, [], false, false, true⟩ : Ctrl).bleDeviceConnected
        = false) ∧
    (loopTick (⟨.notifying, 80, 3, "", ⟨0, HIGH⟩, [], false, false, true⟩ : Ctrl)
        ⟨90, HIGH, true, true, true, true⟩).2.notified = none ∧
    (loopTick (⟨.notifying, 80, 3, "", ⟨0, HIGH⟩, [], false, false, true⟩ : Ctrl)
        ⟨90, HIGH, true, true, true, true⟩).1.currentState = .cooldown := by
  have h := notify_skip_silently
    (⟨.notifying, 80, 3, "", ⟨0, HIGH⟩, [], false, false, true⟩ : Ctrl)
    ⟨90, HIGH, true, true, true, true⟩ (by decide)
  refine ⟨⟨by decide, by decide⟩, h.2.2.1 (by decide), ?_⟩
  rw [h.1]

/-- Claim C9: the dashboard, status and photo handlers leave every
controller-owned datum — state, state-entry timestamp, event counter,
ring history and all the rest of the controller record — unchanged. -/
theorem handlers_readonly :
    ∀ (c : Ctrl) (now heap : Nat) (arg : Option String) (files : List String)
      (openOk : Bool),
      (handleRoot c now).1 = c ∧
      (handleStatus c now heap).1 = c ∧
      (handlePhoto c arg files openOk).1 = c := by
  intro c now heap arg files openOk
  refine ⟨rfl, rfl, ?_⟩
  cases arg with
  | none => rfl
  | some a =>
      simp only [handlePhoto]
      split
      next => rfl
      next =>
        split
        next => rfl
        next => rfl

/-- The `/doorbell` directory left by a prior run whose final Event
(id 5) had a failed still capture but a successful audio recording:
`ring_0005.raw` exists, `ring_0005.jpg` does not. -/
def priorCard : List String :=
  ["log.csv", "ring_0004.jpg", "ring_0004.raw", "ring_0005.raw"]

/-- Claim C10: the `initSD` scan counts only `ring_*.jpg` names, so on
the card left by a run whose Event 5 had photo failure and audio
success it recovers a counter of 4; the next accepted press therefore
allocates id 5 again, and its audio artifact is written under
`ring_0005.raw` — a name that already exists on storage and is opened
with the truncating `FILE_WRITE` mode, overwriting the old clip instead
of keeping ids unique. -/
theorem id_recovery_jpg_only :
    initSD priorCard = 4 ∧
    (doCapture (bootCtrl (initSD priorCard) true)
        ⟨100, LOW, true, true, true, true⟩).2.created =
      some ⟨5, 100, jpgPath 5⟩ ∧
    rawBase 5 ∈ (doCapture (bootCtrl (initSD priorCard) true)
        ⟨100, LOW, true, true, true, true⟩).2.writes ∧
    rawBase 5 ∈ priorCard := by
  refine ⟨by decide, by decide, by decide, by decide⟩

end Doorbell
